import Mathlib

/-!
Verification development for the SystemDesign repository: a shallow
embedding of the parking-lot demo (ParkingSlot.cpp, ParkingTicket.cpp,
ParkingLot.cpp) and of the movie-ticket booking subsystem
(movieTicketBooking/include/...), together with theorems settling the
specification claims about them.

Machine doubles are modelled as rationals, `std::chrono` time points as
seconds (`Nat`), `unordered_map` as an association list with unique keys,
and C++ enums as Lean inductive types.
-/

namespace Parking

/-- `VehicleType` from Vehicle.h. -/
inductive VehicleType where
  | CAR
  | TRUCK
  | MOTORCYCLE
  | ELECTRIC
deriving DecidableEq, Repr

/-- A parking slot, fields of `ParkingSlot` (ParkingSlot.h).  The parked
vehicle is identified by its licence number. -/
structure ParkingSlot where
  slotNumber : Nat
  isOccupied : Bool
  parkedVehicle : Option String
  slotType : VehicleType
deriving DecidableEq, Repr

/-- `ParkingSlot::isAvailable` (ParkingSlot.cpp). -/
def ParkingSlot.isAvailable (s : ParkingSlot) : Bool :=
  !s.isOccupied

/-- `ParkingSlot::canPark` (ParkingSlot.cpp): not occupied, and the slot
type matches, or a truck slot accepts a car. -/
def ParkingSlot.canPark (s : ParkingSlot) (vehicleType : VehicleType) : Bool :=
  !s.isOccupied && (decide (s.slotType = vehicleType) ||
    (decide (s.slotType = VehicleType.TRUCK) && decide (vehicleType = VehicleType.CAR)))

/-- `ParkingSlot::vacateSlot` (ParkingSlot.cpp). -/
def ParkingSlot.vacateSlot (s : ParkingSlot) : ParkingSlot :=
  { s with parkedVehicle := none, isOccupied := false }

/-- A parking ticket, fields of `ParkingTicket` (ParkingTicket.h); the
entry time is in seconds. -/
structure ParkingTicket where
  ticketNumber : String
  slotNumber : Nat
  entryTime : Nat
deriving DecidableEq, Repr

/-- `ParkingTicket::calculateFee` (ParkingTicket.cpp): the elapsed time
since entry is truncated to whole hours by `duration_cast<hours>`, one
hour is added, and the result is multiplied by the hourly rate.
`elapsedSeconds` is `now - entryTime` in seconds. -/
def calculateFee (elapsedSeconds : Nat) (hourlyRate : Rat) : Rat :=
  ((elapsedSeconds / 3600 + 1 : Nat) : Rat) * hourlyRate

/-- The parking lot state, fields of `ParkingLot` (ParkingLot.h).
`activeTickets` is an association list from ticket number to ticket. -/
structure ParkingLot where
  parkingSlots : List ParkingSlot
  activeTickets : List (String × ParkingTicket)
  hourlyRate : Rat
  nextTicketNumber : Nat
deriving DecidableEq, Repr

/-- Look up an active ticket by number (`activeTickets.find` in
ParkingLot.cpp). -/
def findTicket (tickets : List (String × ParkingTicket)) (ticketNumber : String) :
    Option ParkingTicket :=
  match tickets with
  | [] => none
  | (k, t) :: rest =>
      if k = ticketNumber then some t else findTicket rest ticketNumber

/-- Remove an active ticket by number (`activeTickets.erase` in
ParkingLot.cpp; map keys are unique). -/
def eraseTicket (tickets : List (String × ParkingTicket)) (ticketNumber : String) :
    List (String × ParkingTicket) :=
  tickets.filter (fun kt => !decide (kt.1 = ticketNumber))

instance : Inhabited ParkingSlot :=
  ⟨⟨0, false, none, VehicleType.CAR⟩⟩

/-- Vacate the slot whose `slotNumber` is `n`, guarded exactly as in
`ParkingLot::exitParking`: only when `0 < n ≤ parkingSlots.size()`, and
then the slot at index `n - 1` is vacated. -/
def vacateAt (slots : List ParkingSlot) (n : Nat) : List ParkingSlot :=
  if 0 < n ∧ n ≤ slots.length then
    slots.set (n - 1) ((slots.getD (n - 1) default).vacateSlot)
  else
    slots

/-- `ParkingLot::exitParking` (ParkingLot.cpp): unknown tickets yield
`-1.0` and leave the lot unchanged; otherwise the fee is computed, the
ticket's slot is vacated (when its number is in range) and the ticket is
removed.  `now` is the current time in seconds. -/
def ParkingLot.exitParking (lot : ParkingLot) (ticketNumber : String) (now : Nat) :
    Rat × ParkingLot :=
  match findTicket lot.activeTickets ticketNumber with
  | none => (-1, lot)
  | some ticket =>
      let fee := calculateFee (now - ticket.entryTime) lot.hourlyRate
      (fee,
        { lot with
            parkingSlots := vacateAt lot.parkingSlots ticket.slotNumber,
            activeTickets := eraseTicket lot.activeTickets ticketNumber })

/-- `ParkingLot::getAvailableSpaces` (ParkingLot.cpp): counts slots that
are available and whose type matches, where a car also counts free truck
slots. -/
def ParkingLot.getAvailableSpaces (lot : ParkingLot) (type : VehicleType) : Nat :=
  (lot.parkingSlots.filter (fun slot =>
    slot.isAvailable && (decide (slot.slotType = type) ||
      (decide (type = VehicleType.CAR) && decide (slot.slotType = VehicleType.TRUCK))))).length

end Parking

namespace MovieBooking

/-- Fields of the base `MovieBookingException` (utils/Exceptions.h): a
message, an error code and an HTTP status code. -/
structure MovieBookingException where
  message : String
  errorCode : String
  httpStatusCode : Nat
deriving DecidableEq, Repr

/-- A `BusinessRuleException` (utils/Exceptions.h): the base exception
together with the violated rule. -/
structure BusinessRuleException where
  toBase : MovieBookingException
  rule : String
deriving DecidableEq, Repr

/-- The `BusinessRuleException(message, rule)` constructor
(utils/Exceptions.h): error code `BUSINESS_RULE_VIOLATION`, HTTP status
code 422. -/
def mkBusinessRuleException (message rule : String) : BusinessRuleException :=
  ⟨⟨message, "BUSINESS_RULE_VIOLATION", 422⟩, rule⟩

/-- The `BookingExpiredException(bookingId)` constructor
(utils/Exceptions.h): delegates to `BusinessRuleException` with rule
`BOOKING_EXPIRED`. -/
def mkBookingExpiredException (bookingId : Int) : BusinessRuleException :=
  mkBusinessRuleException ("Booking " ++ toString bookingId ++ " has expired")
    "BOOKING_EXPIRED"

namespace Models

/-- `Models::BookingStatus` (models/Booking.h). -/
inductive BookingStatus where
  | PENDING
  | CONFIRMED
  | CANCELLED
  | EXPIRED
deriving DecidableEq, Repr

/-- `Models::PaymentStatus` (models/Booking.h): exactly five values. -/
inductive PaymentStatus where
  | PENDING
  | PROCESSING
  | COMPLETED
  | FAILED
  | REFUNDED
deriving DecidableEq, Repr

/-- `Models::ShowSeatStatus` (models/Show.h). -/
inductive ShowSeatStatus where
  | AVAILABLE
  | LOCKED
  | BOOKED
  | MAINTENANCE
deriving DecidableEq, Repr

end Models

namespace Payment

/-- `Payment::PaymentStatus` (payment/PaymentGateway.h): six values, the
five of the booking model plus `CANCELLED`. -/
inductive PaymentStatus where
  | PENDING
  | PROCESSING
  | COMPLETED
  | FAILED
  | REFUNDED
  | CANCELLED
deriving DecidableEq, Repr

/-- Membership of a `Payment::PaymentStatus` value in the five-element
set {PENDING, PROCESSING, COMPLETED, FAILED, REFUNDED} named by the
specification. -/
def PaymentStatus.isSpecFive : PaymentStatus → Bool
  | PaymentStatus.PENDING => true
  | PaymentStatus.PROCESSING => true
  | PaymentStatus.COMPLETED => true
  | PaymentStatus.FAILED => true
  | PaymentStatus.REFUNDED => true
  | PaymentStatus.CANCELLED => false

/-- Membership of a `Models::PaymentStatus` value in the same
five-element set. -/
def modelStatusIsSpecFive : Models.PaymentStatus → Bool
  | Models.PaymentStatus.PENDING => true
  | Models.PaymentStatus.PROCESSING => true
  | Models.PaymentStatus.COMPLETED => true
  | Models.PaymentStatus.FAILED => true
  | Models.PaymentStatus.REFUNDED => true

/-- Fields of `PaymentResponse` (payment/PaymentGateway.h); the
`processedAt` time point is in seconds and `additionalData` is omitted
as it never carries behaviour. -/
structure PaymentResponse where
  success : Bool
  transactionId : String
  paymentId : String
  status : PaymentStatus
  message : String
  gatewayResponse : String
  processedAt : Nat
deriving DecidableEq, Repr

/-- The `PaymentResponse(bool success, const std::string& message)`
constructor (payment/PaymentGateway.h): both id strings are left empty
and `status` is set to `PaymentStatus::FAILED` whatever `success` is. -/
def mkPaymentResponse (success : Bool) (message : String) (now : Nat) : PaymentResponse :=
  ⟨success, "", "", PaymentStatus.FAILED, message, "", now⟩

end Payment

/-- The configuration fields of `BookingService`
(services/BookingService.h). -/
structure BookingServiceConfig where
  defaultLockDurationMinutes : Nat
  cleanupIntervalMinutes : Nat
  maxBookingRetries : Nat
deriving DecidableEq, Repr

/-- The default arguments of the `BookingService` constructor
(services/BookingService.h lines 65-69), which the constructor stores
in the configuration fields. -/
def bookingServiceDefaults : BookingServiceConfig :=
  ⟨15, 5, 3⟩

/-- The configuration fields of `PaymentService`
(payment/PaymentGateway.h); the retry delay is in seconds. -/
structure PaymentServiceConfig where
  defaultGateway : String
  maxRetries : Nat
  retryDelaySeconds : Nat
deriving DecidableEq, Repr

/-- The default arguments of the `PaymentService` constructor
(payment/PaymentGateway.h lines 228-229). -/
def paymentServiceDefaults : PaymentServiceConfig :=
  ⟨"mock", 3, 2⟩

end MovieBooking

namespace MovieBooking.Models

/-- The state of a `ShowSeat` (models/Show.h lines 29-72): identity,
status, the holding booking and the lock expiry.  `lockedUntil` is in
seconds and `none` when no lock is in force; `bookingId` is `none` when
no booking holds the seat. -/
structure ShowSeat where
  id : Nat
  showId : Nat
  seatId : Nat
  status : ShowSeatStatus
  lockedUntil : Option Nat
  bookingId : Option Nat
  price : Rat
deriving DecidableEq, Repr

/-- Modelled from the spec: the body of `ShowSeat::canBeLocked`
(declared at models/Show.h line 61) is not among the repository sources.
Spec section 4.2 (step 2 and the step 5 guard) defines a lockable seat
as one that is AVAILABLE, or LOCKED with an elapsed `lockedUntil`. -/
def ShowSeat.canBeLocked (s : ShowSeat) (now : Nat) : Bool :=
  decide (s.status = ShowSeatStatus.AVAILABLE) ||
    (decide (s.status = ShowSeatStatus.LOCKED) &&
      (match s.lockedUntil with
       | none => true
       | some t => decide (t ≤ now)))

/-- Modelled from the spec: the body of `ShowSeat::lockSeat`
(models/Show.h line 62) is not among the sources.  Spec section 4.2
steps 2 and 5: the lock succeeds exactly on a lockable seat and sets
status LOCKED, the holder, and `lockedUntil = now + lockDuration`. -/
def ShowSeat.lockSeat (s : ShowSeat) (bookingId : Nat)
    (lockDurationMinutes : Nat) (now : Nat) : Bool × ShowSeat :=
  if s.canBeLocked now then
    (true, { s with status := ShowSeatStatus.LOCKED,
                    bookingId := some bookingId,
                    lockedUntil := some (now + 60 * lockDurationMinutes) })
  else (false, s)

/-- Modelled from the spec: the body of `ShowSeat::bookSeat`
(models/Show.h line 64) is not among the sources.  Spec section 4.3
step 3: the transition (LOCKED ∧ holder = bookingId) → BOOKED. -/
def ShowSeat.bookSeat (s : ShowSeat) (bookingId : Nat) : Bool × ShowSeat :=
  if s.status = ShowSeatStatus.LOCKED ∧ s.bookingId = some bookingId then
    (true, { s with status := ShowSeatStatus.BOOKED })
  else (false, s)

/-- Modelled from the spec: the body of `ShowSeat::releaseLock`
(models/Show.h line 63) is not among the sources.  Spec section 4.4: a
LOCKED seat is released to (AVAILABLE, holder ∅, lockedUntil ∅). -/
def ShowSeat.releaseLock (s : ShowSeat) : Bool × ShowSeat :=
  if s.status = ShowSeatStatus.LOCKED then
    (true, { s with status := ShowSeatStatus.AVAILABLE,
                    bookingId := none, lockedUntil := none })
  else (false, s)

/-- One operation on a single show seat, as named by the no-double-booking
invariant. -/
inductive SeatOp where
  | lock (bookingId : Nat) (lockDurationMinutes : Nat) (now : Nat)
  | book (bookingId : Nat)
  | release
deriving DecidableEq, Repr

/-- The state part of applying one seat operation. -/
def applySeatOp (s : ShowSeat) : SeatOp → ShowSeat
  | SeatOp.lock b d now => (s.lockSeat b d now).2
  | SeatOp.book b => (s.bookSeat b).2
  | SeatOp.release => s.releaseLock.2

/-- Run a sequence of seat operations from an initial seat state. -/
def runSeatOps (s : ShowSeat) (ops : List SeatOp) : ShowSeat :=
  ops.foldl applySeatOp s

/-- Booking `b` holds seat `s`: the seat's status is LOCKED or BOOKED and
its holder is `b`. -/
def holdsSeat (b : Nat) (s : ShowSeat) : Prop :=
  (s.status = ShowSeatStatus.LOCKED ∨ s.status = ShowSeatStatus.BOOKED) ∧
    s.bookingId = some b

instance (b : Nat) (s : ShowSeat) : Decidable (holdsSeat b s) := by
  unfold holdsSeat; infer_instance

/-- Modelled from the spec: the body of `Show::lockSeats`
(models/Show.h line 116) is not among the sources.  Spec section 4.2 is
all-or-nothing: when every requested seat is lockable all are locked to
the booking, otherwise nothing changes. -/
def lockSeatsList (seats : List ShowSeat) (seatIds : List Nat)
    (bookingId lockDurationMinutes now : Nat) : Bool × List ShowSeat :=
  if seatIds.all (fun sid =>
      match seats.find? (fun s => s.seatId == sid) with
      | some s => s.canBeLocked now
      | none => false) then
    (true, seats.map (fun s =>
      if s.seatId ∈ seatIds then
        (s.lockSeat bookingId lockDurationMinutes now).2
      else s))
  else (false, seats)

/-- Modelled from the spec: the body of `Show::releaseLockedSeats`
(models/Show.h line 117) is not among the sources.  Spec section 4.4:
every seat (LOCKED, holder = bookingId) goes to (AVAILABLE, holder ∅,
lockedUntil ∅). -/
def releaseLockedSeatsList (seats : List ShowSeat) (bookingId : Nat) :
    List ShowSeat :=
  seats.map (fun s =>
    if s.status = ShowSeatStatus.LOCKED ∧ s.bookingId = some bookingId then
      s.releaseLock.2
    else s)

end MovieBooking.Models

namespace MovieBooking.Services

/-- A booking row (models/Booking.h fields, seat ids inlined as in
`Booking::getShowSeatIds`). -/
structure Booking where
  id : Nat
  userId : Nat
  showId : Nat
  bookingStatus : Models.BookingStatus
  paymentStatus : Models.PaymentStatus
  totalAmount : Rat
  showSeatIds : List Nat
  expiresAt : Nat
deriving DecidableEq, Repr

/-- The store state the reservation engine acts on: the seat rows of the
show, the booking rows, and the next fresh booking id. -/
structure SysState where
  seats : List Models.ShowSeat
  bookings : List Booking
  nextBookingId : Nat
deriving DecidableEq, Repr

/-- Outcome of a booking request, after `BookingResult`
(services/BookingService.h lines 22-30): success flag, message, the
booking id when one was created, and the offending seat ids. -/
structure BookingOutcome where
  success : Bool
  message : String
  bookingId : Option Nat
  failedSeatIds : List Nat
deriving DecidableEq, Repr

/-- Find the first seat row with the given seat id (the single store
read of spec section 4.2 step 1). -/
def findSeat (seats : List Models.ShowSeat) (sid : Nat) : Option Models.ShowSeat :=
  match seats with
  | [] => none
  | s :: rest => if s.seatId = sid then some s else findSeat rest sid

/-- Modelled from the spec: the per-seat conditional update of spec
section 4.2 step 5 — guarded by (status AVAILABLE) ∨ (status LOCKED ∧
lockedUntil ≤ now) — applied to the first row with the given seat id;
`none` when the row is missing or the guard fails. -/
def condLockOne (seats : List Models.ShowSeat) (sid bookingId expiresAt now : Nat) :
    Option (List Models.ShowSeat) :=
  match seats with
  | [] => none
  | s :: rest =>
      if s.seatId = sid then
        if s.canBeLocked now then
          some ({ s with status := Models.ShowSeatStatus.LOCKED,
                         bookingId := some bookingId,
                         lockedUntil := some expiresAt } :: rest)
        else none
      else
        match condLockOne rest sid bookingId expiresAt now with
        | some rest' => some (s :: rest')
        | none => none

/-- Modelled from the spec: the conditional-update loop of spec section
4.2 step 5.  Returns (applied-all, seat ids updated so far, resulting
seat rows); on a failed conditional update the rows reached so far are
returned unchanged together with the ids already updated, for the
rollback. -/
def tryLockSeats (seats : List Models.ShowSeat) (todo : List Nat)
    (bookingId expiresAt now : Nat) (lockedSoFar : List Nat) :
    Bool × List Nat × List Models.ShowSeat :=
  match todo with
  | [] => (true, lockedSoFar, seats)
  | sid :: rest =>
      match condLockOne seats sid bookingId expiresAt now with
      | some seats' => tryLockSeats seats' rest bookingId expiresAt now (sid :: lockedSoFar)
      | none => (false, lockedSoFar, seats)

/-- Modelled from the spec: the bodies of `BookingService::initiateBooking`
and `BookingService::processBookingRequest` (services/BookingService.h
lines 74-75 and 130) are not among the repository sources.  Spec section
4.2 gives the algorithm: load the seat rows (NOT_FOUND on a missing row),
stale-aware availability check (SEAT_UNAVAILABLE with the offending seat
ids, all-or-nothing), total = sum of seat prices, create a PENDING
booking with expiresAt = now + lockDuration, conditionally lock each
seat, and if any conditional update fails roll back the prior seat
updates to (AVAILABLE, holder ∅) and mark the booking CANCELLED,
returning CONFLICT. -/
def initiateBooking (st : SysState) (userId showId : Nat) (seatIds : List Nat)
    (lockDurationMinutes now : Nat) : BookingOutcome × SysState :=
  if seatIds.any (fun sid => (findSeat st.seats sid).isNone) then
    (⟨false, "NOT_FOUND", none, []⟩, st)
  else
    let failed := seatIds.filter (fun sid =>
      match findSeat st.seats sid with
      | some s => !(s.canBeLocked now)
      | none => false)
    if failed = [] then
      let bid := st.nextBookingId
      let expiresAt := now + 60 * lockDurationMinutes
      let total := (seatIds.map (fun sid =>
        match findSeat st.seats sid with
        | some s => s.price
        | none => 0)).sum
      let pending : Booking := ⟨bid, userId, showId, Models.BookingStatus.PENDING,
        Models.PaymentStatus.PENDING, total, seatIds, expiresAt⟩
      let attempt := tryLockSeats st.seats seatIds bid expiresAt now []
      if attempt.1 then
        (⟨true, "", some bid, []⟩,
         ⟨attempt.2.2, st.bookings ++ [pending], bid + 1⟩)
      else
        (⟨false, "CONFLICT", none, []⟩,
         ⟨attempt.2.2.map (fun s =>
            if s.seatId ∈ attempt.2.1 then
              { s with status := Models.ShowSeatStatus.AVAILABLE,
                       bookingId := none, lockedUntil := none }
            else s),
          st.bookings ++ [{ pending with bookingStatus := Models.BookingStatus.CANCELLED }],
          bid + 1⟩)
    else
      (⟨false, "SEAT_UNAVAILABLE", none, failed⟩, st)

end MovieBooking.Services

/-- C4: `ParkingTicket::calculateFee` returns (h + 1) * rate where h is the
elapsed time since entry truncated to whole hours; an elapsed time of
exactly k whole hours is billed as k + 1 hours. -/
theorem calculateFee_adds_one_hour :
    ∀ (elapsedSeconds : Nat) (r : Rat),
      (Parking.calculateFee elapsedSeconds r =
        (((elapsedSeconds / 3600 : Nat) : Rat) + 1) * r) ∧
      ∀ k : Nat, Parking.calculateFee (k * 3600) r = ((k : Rat) + 1) * r := by
  intro e r
  constructor
  · unfold Parking.calculateFee
    push_cast
    ring
  · intro k
    unfold Parking.calculateFee
    rw [Nat.mul_div_cancel k (by norm_num : (0 : Nat) < 3600)]
    push_cast
    ring

/-- C8: a `PaymentResponse` built by the (success, message) constructor has
status FAILED, also when success is true. -/
theorem paymentResponse_ctor_status_failed :
    ∀ (success : Bool) (message : String) (now : Nat),
      (MovieBooking.Payment.mkPaymentResponse success message now).status =
        MovieBooking.Payment.PaymentStatus.FAILED ∧
      (MovieBooking.Payment.mkPaymentResponse true message now).status =
        MovieBooking.Payment.PaymentStatus.FAILED :=
  fun _ _ _ => ⟨rfl, rfl⟩

/-- C7: the default-argument constructions of `BookingService` and
`PaymentService` yield lock duration 15 minutes, cleanup interval 5
minutes, maximum payment retries 3 and payment retry delay 2 seconds. -/
theorem service_default_configuration :
    MovieBooking.bookingServiceDefaults.defaultLockDurationMinutes = 15 ∧
    MovieBooking.bookingServiceDefaults.cleanupIntervalMinutes = 5 ∧
    MovieBooking.paymentServiceDefaults.maxRetries = 3 ∧
    MovieBooking.paymentServiceDefaults.retryDelaySeconds = 2 :=
  ⟨rfl, rfl, rfl, rfl⟩

/-- C3 counterexample: the expired-booking error built by
`BookingExpiredException(1)` does not carry HTTP status code 410 — it
inherits 422 from `BusinessRuleException`. -/
theorem bookingExpired_http_not_410 :
    ¬ (MovieBooking.mkBookingExpiredException 1).toBase.httpStatusCode = 410 := by
  decide

/-- C3 amended: every construction of the expired-booking error carries
HTTP status code 422, the code `BusinessRuleException` installs. -/
theorem bookingExpired_http_422 :
    ∀ bookingId : Int,
      (MovieBooking.mkBookingExpiredException bookingId).toBase.httpStatusCode = 422 :=
  fun _ => rfl

/-- C6 counterexample: the payment subsystem's `PaymentStatus` has the
value CANCELLED, which lies outside the five-element set {PENDING,
PROCESSING, COMPLETED, FAILED, REFUNDED}. -/
theorem paymentStatus_cancelled_outside_five :
    MovieBooking.Payment.PaymentStatus.isSpecFive
      MovieBooking.Payment.PaymentStatus.CANCELLED = false :=
  rfl

/-- C6 amended: the booking model's `PaymentStatus` takes exactly the five
values {PENDING, PROCESSING, COMPLETED, FAILED, REFUNDED}, while the
payment subsystem's `PaymentStatus` takes those five or CANCELLED. -/
theorem paymentStatus_value_sets :
    (∀ s : MovieBooking.Models.PaymentStatus,
       MovieBooking.Payment.modelStatusIsSpecFive s = true) ∧
    (∀ s : MovieBooking.Payment.PaymentStatus,
       s.isSpecFive = true ∨ s = MovieBooking.Payment.PaymentStatus.CANCELLED) := by
  constructor
  · intro s
    cases s <;> rfl
  · intro s
    cases s <;> simp [MovieBooking.Payment.PaymentStatus.isSpecFive]

/-- C9: `ParkingSlot::canPark` holds exactly when the slot is unoccupied
and the types match or a truck slot hosts a car; consequently
`getAvailableSpaces(CAR)` counts free car and free truck slots, while
motorcycles and trucks only count slots of their own type. -/
theorem canPark_and_availableSpaces :
    (∀ (s : Parking.ParkingSlot) (vt : Parking.VehicleType),
       s.canPark vt = true ↔
         s.isOccupied = false ∧ (s.slotType = vt ∨
           (s.slotType = Parking.VehicleType.TRUCK ∧ vt = Parking.VehicleType.CAR))) ∧
    (∀ lot : Parking.ParkingLot,
       (lot.getAvailableSpaces Parking.VehicleType.CAR =
         (lot.parkingSlots.filter (fun s =>
           s.isAvailable && (decide (s.slotType = Parking.VehicleType.CAR) ||
             decide (s.slotType = Parking.VehicleType.TRUCK)))).length) ∧
       (lot.getAvailableSpaces Parking.VehicleType.MOTORCYCLE =
         (lot.parkingSlots.filter (fun s =>
           s.isAvailable && decide (s.slotType = Parking.VehicleType.MOTORCYCLE))).length) ∧
       (lot.getAvailableSpaces Parking.VehicleType.TRUCK =
         (lot.parkingSlots.filter (fun s =>
           s.isAvailable && decide (s.slotType = Parking.VehicleType.TRUCK))).length)) := by
  constructor
  · intro s vt
    rcases s with ⟨n, occ, v, t⟩
    cases occ <;> cases t <;> cases vt <;>
      simp [Parking.ParkingSlot.canPark]
  · intro lot
    refine ⟨?_, ?_, ?_⟩ <;>
      · unfold Parking.ParkingLot.getAvailableSpaces
        refine congrArg List.length (List.filter_congr ?_)
        intro s _
        rcases s with ⟨n, occ, v, t⟩
        cases occ <;> cases t <;> rfl

/-- C1: for every seat state reachable by a sequence of lockSeat /
bookSeat / releaseLock operations, at most one booking holds the seat in
a status in {LOCKED, BOOKED}: any two holders coincide. -/
theorem seat_no_double_holding :
    ∀ (s : MovieBooking.Models.ShowSeat) (ops : List MovieBooking.Models.SeatOp)
      (b1 b2 : Nat),
      MovieBooking.Models.holdsSeat b1 (MovieBooking.Models.runSeatOps s ops) →
      MovieBooking.Models.holdsSeat b2 (MovieBooking.Models.runSeatOps s ops) →
      b1 = b2 := by
  intro s ops b1 b2 h1 h2
  exact Option.some.inj (h1.2.symm.trans h2.2)

/-- A concrete locked seat used to instantiate the no-double-holding
theorem. -/
def seatHeldBySeven : MovieBooking.Models.ShowSeat :=
  ⟨1, 1, 10, MovieBooking.Models.ShowSeatStatus.LOCKED, some 100, some 7, 0⟩

/-- Witness for C1 at a concrete seat, trace and holders. -/
theorem seat_no_double_holding_witness : (7 : Nat) = 7 :=
  seat_no_double_holding seatHeldBySeven
    [MovieBooking.Models.SeatOp.book 7] 7 7 (by decide) (by decide)

/-- Mapping a function that fixes every member of a list leaves the list
unchanged. -/
theorem map_fix_of_mem {α : Type} (f : α → α) :
    ∀ l : List α, (∀ x ∈ l, f x = x) → l.map f = l := by
  intro l h
  induction l with
  | nil => rfl
  | cons a t ih =>
      simp only [List.map_cons, List.cons.injEq]
      exact ⟨h a (List.mem_cons_self a t), ih fun x hx => h x (List.mem_cons_of_mem a hx)⟩

/-- Locking an AVAILABLE seat and then releasing the lock held by the same
booking restores the seat exactly. -/
theorem seat_lock_release_fix (s : MovieBooking.Models.ShowSeat)
    (bookingId lockDurationMinutes now : Nat)
    (hst : s.status = MovieBooking.Models.ShowSeatStatus.AVAILABLE)
    (hbk : s.bookingId = none)
    (hlk : s.lockedUntil = none) :
    (fun s' => if s'.status = MovieBooking.Models.ShowSeatStatus.LOCKED ∧
                  s'.bookingId = some bookingId
               then s'.releaseLock.2 else s')
      ((s.lockSeat bookingId lockDurationMinutes now).2) = s := by
  rcases s with ⟨i, sh, sid, st, lu, bk, pr⟩
  have hst' : st = MovieBooking.Models.ShowSeatStatus.AVAILABLE := hst
  have hbk' : bk = none := hbk
  have hlk' : lu = none := hlk
  subst hst'
  subst hbk'
  subst hlk'
  simp [MovieBooking.Models.ShowSeat.lockSeat, MovieBooking.Models.ShowSeat.canBeLocked,
    MovieBooking.Models.ShowSeat.releaseLock]

/-- C5: locking a set of AVAILABLE seats to a fresh booking and then
cancelling that booking (releasing its locked seats) restores every seat
to its exact state before the lock. -/
theorem lock_cancel_round_trip :
    ∀ (seats : List MovieBooking.Models.ShowSeat) (seatIds : List Nat)
      (bookingId lockDurationMinutes now : Nat),
      (∀ s ∈ seats, s.seatId ∈ seatIds →
         s.status = MovieBooking.Models.ShowSeatStatus.AVAILABLE ∧
         s.bookingId = none ∧ s.lockedUntil = none) →
      (∀ s ∈ seats, s.bookingId ≠ some bookingId) →
      MovieBooking.Models.releaseLockedSeatsList
        (MovieBooking.Models.lockSeatsList seats seatIds bookingId
          lockDurationMinutes now).2 bookingId = seats := by
  intro seats seatIds bookingId lockDurationMinutes now hAvail hFresh
  unfold MovieBooking.Models.lockSeatsList
  split
  · unfold MovieBooking.Models.releaseLockedSeatsList
    rw [List.map_map]
    apply map_fix_of_mem
    intro s hs
    simp only [Function.comp_apply]
    by_cases hmem : s.seatId ∈ seatIds
    · rw [if_pos hmem]
      obtain ⟨hst, hbk, hlk⟩ := hAvail s hs hmem
      exact seat_lock_release_fix s bookingId lockDurationMinutes now hst hbk hlk
    · rw [if_neg hmem]
      exact if_neg fun hc => hFresh s hs hc.2
  · unfold MovieBooking.Models.releaseLockedSeatsList
    apply map_fix_of_mem
    intro s hs
    exact if_neg fun hc => hFresh s hs hc.2

/-- Concrete seats used to instantiate the round-trip theorem. -/
def roundTripSeats : List MovieBooking.Models.ShowSeat :=
  [⟨1, 1, 10, MovieBooking.Models.ShowSeatStatus.AVAILABLE, none, none, 100⟩,
   ⟨2, 1, 11, MovieBooking.Models.ShowSeatStatus.AVAILABLE, none, none, 100⟩]

/-- Witness for C5 at two concrete AVAILABLE seats. -/
theorem lock_cancel_round_trip_witness :
    MovieBooking.Models.releaseLockedSeatsList
      (MovieBooking.Models.lockSeatsList roundTripSeats [10, 11] 42 15 0).2 42 =
      roundTripSeats :=
  lock_cancel_round_trip roundTripSeats [10, 11] 42 15 0 (by decide) (by decide)

/-- Setting index `i` leaves every other position unchanged. -/
theorem getD_set_ne {α : Type} (d : α) :
    ∀ (l : List α) (i j : Nat) (a : α), i ≠ j →
      (l.set i a).getD j d = l.getD j d := by
  intro l
  induction l with
  | nil => intro i j a _; cases i <;> rfl
  | cons x xs ih =>
      intro i j a h
      cases i with
      | zero =>
          cases j with
          | zero => exact absurd rfl h
          | succ j' => rfl
      | succ i' =>
          cases j with
          | zero => rfl
          | succ j' => exact ih i' j' a fun hh => h (by rw [hh])

/-- Setting an in-range index puts the new value at that position. -/
theorem getD_set_self {α : Type} (d : α) :
    ∀ (l : List α) (i : Nat) (a : α), i < l.length →
      (l.set i a).getD i d = a := by
  intro l
  induction l with
  | nil => intro i a h; exact absurd h (by simp)
  | cons x xs ih =>
      intro i a h
      cases i with
      | zero => rfl
      | succ i' => exact ih i' a (Nat.lt_of_succ_lt_succ h)

/-- After erasing a ticket number, looking it up yields nothing. -/
theorem findTicket_eraseTicket_self :
    ∀ (tickets : List (String × Parking.ParkingTicket)) (tn : String),
      Parking.findTicket (Parking.eraseTicket tickets tn) tn = none := by
  intro tickets tn
  induction tickets with
  | nil => rfl
  | cons kt rest ih =>
      by_cases hk : kt.1 = tn
      · simp only [Parking.eraseTicket, List.filter_cons, hk]
        simpa [Parking.eraseTicket] using ih
      · simp only [Parking.eraseTicket, List.filter_cons]
        rw [if_pos (by simpa using hk)]
        simpa [Parking.findTicket, hk, Parking.eraseTicket] using ih

/-- A fee computed with a non-negative rate is non-negative. -/
theorem calculateFee_nonneg (elapsedSeconds : Nat) (r : Rat) (h : 0 ≤ r) :
    0 ≤ Parking.calculateFee elapsedSeconds r := by
  unfold Parking.calculateFee
  positivity

/-- C10: with a non-negative hourly rate, `ParkingLot::exitParking`
returns -1.0 exactly on unknown ticket numbers and leaves the lot
unchanged then; on success it vacates exactly the slot named by the
ticket (when in range), removes the ticket, and a second call with the
same ticket number returns -1.0 and changes nothing. -/
theorem exitParking_spec :
    ∀ (lot : Parking.ParkingLot) (ticketNumber : String) (now : Nat),
      0 ≤ lot.hourlyRate →
      ((lot.exitParking ticketNumber now).1 = -1 ↔
         Parking.findTicket lot.activeTickets ticketNumber = none) ∧
      (Parking.findTicket lot.activeTickets ticketNumber = none →
         (lot.exitParking ticketNumber now).2 = lot) ∧
      (∀ t, Parking.findTicket lot.activeTickets ticketNumber = some t →
         (lot.exitParking ticketNumber now).2.parkingSlots =
           Parking.vacateAt lot.parkingSlots t.slotNumber ∧
         (0 < t.slotNumber ∧ t.slotNumber ≤ lot.parkingSlots.length →
            (lot.exitParking ticketNumber now).2.parkingSlots.getD
              (t.slotNumber - 1) default =
              (lot.parkingSlots.getD (t.slotNumber - 1) default).vacateSlot) ∧
         (∀ i, i ≠ t.slotNumber - 1 →
            (lot.exitParking ticketNumber now).2.parkingSlots.getD i default =
              lot.parkingSlots.getD i default) ∧
         Parking.findTicket
           (lot.exitParking ticketNumber now).2.activeTickets ticketNumber = none ∧
         ((lot.exitParking ticketNumber now).2.exitParking ticketNumber now).1 = -1 ∧
         ((lot.exitParking ticketNumber now).2.exitParking ticketNumber now).2 =
           (lot.exitParking ticketNumber now).2) := by
  intro lot tn now hRate
  have hnoneCase : ∀ l2 : Parking.ParkingLot,
      Parking.findTicket l2.activeTickets tn = none →
      (l2.exitParking tn now).1 = -1 ∧ (l2.exitParking tn now).2 = l2 := by
    intro l2 h2
    constructor <;> simp [Parking.ParkingLot.exitParking, h2]
  cases hft : Parking.findTicket lot.activeTickets tn with
  | none =>
      refine ⟨?_, fun _ => (hnoneCase lot hft).2, ?_⟩
      · simp [(hnoneCase lot hft).1]
      · intro t ht
        exact absurd ht.symm (by simp)
  | some t0 =>
      have hfee : 0 ≤ Parking.calculateFee (now - t0.entryTime) lot.hourlyRate :=
        calculateFee_nonneg _ _ hRate
      refine ⟨?_, ?_, ?_⟩
      · constructor
        · intro h
          simp only [Parking.ParkingLot.exitParking, hft] at h
          rw [h] at hfee
          norm_num at hfee
        · intro h
          exact absurd h (by simp)
      · intro h
        exact absurd h (by simp)
      · intro t ht
        have ht0 : t = t0 := Option.some.inj ht.symm
        subst ht0
        have hexit :
            (lot.exitParking tn now).2 =
              { lot with
                  parkingSlots := Parking.vacateAt lot.parkingSlots t.slotNumber,
                  activeTickets := Parking.eraseTicket lot.activeTickets tn } := by
          simp [Parking.ParkingLot.exitParking, hft]
        have hnone :
            Parking.findTicket (lot.exitParking tn now).2.activeTickets tn = none := by
          rw [hexit]
          exact findTicket_eraseTicket_self lot.activeTickets tn
        refine ⟨by rw [hexit], ?_, ?_, hnone, ?_, ?_⟩
        · intro hrange
          rw [hexit]
          show (Parking.vacateAt lot.parkingSlots t.slotNumber).getD
            (t.slotNumber - 1) default = _
          unfold Parking.vacateAt
          rw [if_pos hrange]
          exact getD_set_self default lot.parkingSlots (t.slotNumber - 1) _
            (by omega)
        · intro i hi
          rw [hexit]
          show (Parking.vacateAt lot.parkingSlots t.slotNumber).getD i default = _
          unfold Parking.vacateAt
          split
          · exact getD_set_ne default lot.parkingSlots (t.slotNumber - 1) i _
              fun hh => hi hh.symm
          · rfl
        · exact (hnoneCase _ hnone).1
        · exact (hnoneCase _ hnone).2

/-- A concrete one-slot lot with one active ticket, used to instantiate
the exit-parking theorem. -/
def demoLot : Parking.ParkingLot :=
  ⟨[⟨1, true, some "KA01AB1234", Parking.VehicleType.CAR⟩],
   [("TKT00000001", ⟨"TKT00000001", 1, 0⟩)], 10, 2⟩

/-- Witness for C10: the second exit with the same ticket returns -1. -/
theorem exitParking_spec_witness :
    ((demoLot.exitParking "TKT00000001" 3600).2.exitParking "TKT00000001" 3600).1 = -1 :=
  ((exitParking_spec demoLot "TKT00000001" 3600 (by decide)).2.2
    ⟨"TKT00000001", 1, 0⟩ (by decide)).2.2.2.2.1

/-- A seat found by id is a member of the seat list. -/
theorem findSeat_mem :
    ∀ (seats : List MovieBooking.Models.ShowSeat) (sid : Nat)
      (s : MovieBooking.Models.ShowSeat),
      MovieBooking.Services.findSeat seats sid = some s → s ∈ seats := by
  intro seats
  induction seats with
  | nil => intro sid s h; simp [MovieBooking.Services.findSeat] at h
  | cons s0 rest ih =>
      intro sid s h
      unfold MovieBooking.Services.findSeat at h
      by_cases h0 : s0.seatId = sid
      · rw [if_pos h0] at h
        exact (Option.some.inj h) ▸ List.mem_cons_self s0 rest
      · rw [if_neg h0] at h
        exact List.mem_cons_of_mem s0 (ih sid s h)

/-- A successful per-seat conditional lock: when the row exists and its
guard holds the update applies, the locked row is then read back, and
every other seat id reads unchanged. -/
theorem condLockOne_applies :
    ∀ (seats : List MovieBooking.Models.ShowSeat) (sid bookingId expiresAt now : Nat)
      (s : MovieBooking.Models.ShowSeat),
      MovieBooking.Services.findSeat seats sid = some s →
      s.canBeLocked now = true →
      ∃ seats',
        MovieBooking.Services.condLockOne seats sid bookingId expiresAt now = some seats' ∧
        MovieBooking.Services.findSeat seats' sid =
          some { s with status := MovieBooking.Models.ShowSeatStatus.LOCKED,
                        bookingId := some bookingId,
                        lockedUntil := some expiresAt } ∧
        ∀ sid', sid' ≠ sid →
          MovieBooking.Services.findSeat seats' sid' =
            MovieBooking.Services.findSeat seats sid' := by
  intro seats
  induction seats with
  | nil => intro sid b e now s hf _; simp [MovieBooking.Services.findSeat] at hf
  | cons s0 rest ih =>
      intro sid b e now s hf hcan
      by_cases h0 : s0.seatId = sid
      · have hs : s0 = s := by
          unfold MovieBooking.Services.findSeat at hf
          rw [if_pos h0] at hf
          exact Option.some.inj hf
        subst hs
        refine ⟨{ s0 with status := MovieBooking.Models.ShowSeatStatus.LOCKED,
                          bookingId := some b,
                          lockedUntil := some e } :: rest, ?_, ?_, ?_⟩
        · unfold MovieBooking.Services.condLockOne
          rw [if_pos h0, if_pos hcan]
        · unfold MovieBooking.Services.findSeat
          rw [if_pos h0]
        · intro sid' hne
          unfold MovieBooking.Services.findSeat
          rw [if_neg (fun hh => hne ((hh : s0.seatId = sid').symm.trans h0)),
            if_neg (fun hh => hne ((hh : s0.seatId = sid').symm.trans h0))]
      · have hf' : MovieBooking.Services.findSeat rest sid = some s := by
          unfold MovieBooking.Services.findSeat at hf
          rwa [if_neg h0] at hf
        obtain ⟨rest', hc, hfind, hpres⟩ := ih sid b e now s hf' hcan
        refine ⟨s0 :: rest', ?_, ?_, ?_⟩
        · unfold MovieBooking.Services.condLockOne
          rw [if_neg h0, hc]
        · unfold MovieBooking.Services.findSeat
          rw [if_neg h0]
          exact hfind
        · intro sid' hne
          unfold MovieBooking.Services.findSeat
          rw [hpres sid' hne]

/-- When every seat in a duplicate-free request is present and lockable,
the conditional-update loop applies in full: it reports success, leaves
seats outside the request unchanged, and every requested seat reads back
LOCKED and held by the new booking. -/
theorem tryLockSeats_applies :
    ∀ (todo : List Nat) (seats : List MovieBooking.Models.ShowSeat)
      (bookingId expiresAt now : Nat) (acc : List Nat),
      todo.Nodup →
      (∀ sid ∈ todo, ∃ s, MovieBooking.Services.findSeat seats sid = some s ∧
         s.canBeLocked now = true) →
      (MovieBooking.Services.tryLockSeats seats todo bookingId expiresAt now acc).1 = true ∧
      (∀ sid', sid' ∉ todo →
         MovieBooking.Services.findSeat
           (MovieBooking.Services.tryLockSeats seats todo bookingId expiresAt now acc).2.2 sid' =
           MovieBooking.Services.findSeat seats sid') ∧
      (∀ sid ∈ todo, ∃ s,
         MovieBooking.Services.findSeat
           (MovieBooking.Services.tryLockSeats seats todo bookingId expiresAt now acc).2.2 sid =
           some s ∧
         s.status = MovieBooking.Models.ShowSeatStatus.LOCKED ∧
         s.bookingId = some bookingId) := by
  intro todo
  induction todo with
  | nil =>
      intro seats b e now acc _ _
      exact ⟨rfl, fun _ _ => rfl, by simp⟩
  | cons sid rest ih =>
      intro seats b e now acc hnd hall
      obtain ⟨s, hfs, hcan⟩ := hall sid (List.mem_cons_self sid rest)
      obtain ⟨seats', hc, hfind, hpres⟩ :=
        condLockOne_applies seats sid b e now s hfs hcan
      have hnotmem : sid ∉ rest := (List.nodup_cons.mp hnd).1
      have hndrest : rest.Nodup := (List.nodup_cons.mp hnd).2
      have hrest : ∀ sid' ∈ rest, ∃ s',
          MovieBooking.Services.findSeat seats' sid' = some s' ∧
          s'.canBeLocked now = true := by
        intro sid' hmem
        have hne : sid' ≠ sid := fun hh => hnotmem (hh ▸ hmem)
        obtain ⟨s', h1, h2⟩ := hall sid' (List.mem_cons_of_mem sid hmem)
        exact ⟨s', (hpres sid' hne).trans h1, h2⟩
      obtain ⟨hsucc, hpres2, hlocked⟩ := ih seats' b e now (sid :: acc) hndrest hrest
      have heq : MovieBooking.Services.tryLockSeats seats (sid :: rest) b e now acc =
          MovieBooking.Services.tryLockSeats seats' rest b e now (sid :: acc) := by
        conv_lhs => unfold MovieBooking.Services.tryLockSeats
        rw [hc]
      rw [heq]
      refine ⟨hsucc, ?_, ?_⟩
      · intro sid' hnotin
        have hne : sid' ≠ sid := fun hh => hnotin (hh ▸ List.mem_cons_self sid rest)
        have hnr : sid' ∉ rest := fun hh => hnotin (List.mem_cons_of_mem sid hh)
        rw [hpres2 sid' hnr, hpres sid' hne]
      · intro sid0 hmem
        rcases List.mem_cons.mp hmem with h | h
        · subst h
          refine ⟨{ s with status := MovieBooking.Models.ShowSeatStatus.LOCKED,
                           bookingId := some b,
                           lockedUntil := some e }, ?_, rfl, rfl⟩
          rw [hpres2 sid0 hnotmem]
          exact hfind
        · exact hlocked sid0 h

/-- C2: after any `initiateBooking` call on a duplicate-free request with
a fresh next booking id, either the call succeeds and every requested
seat is LOCKED to the newly created booking while that booking is
PENDING among the booking rows, or the call fails and the state equals
the state before the call, with no seat held by the would-be booking. -/
theorem initiateBooking_atomic :
    ∀ (st : MovieBooking.Services.SysState) (userId showId : Nat)
      (seatIds : List Nat) (lockDurationMinutes now : Nat),
      seatIds.Nodup →
      (∀ s ∈ st.seats, s.bookingId ≠ some st.nextBookingId) →
      ((MovieBooking.Services.initiateBooking st userId showId seatIds
          lockDurationMinutes now).1.success = true →
        (∀ sid ∈ seatIds, ∃ s,
           MovieBooking.Services.findSeat
             (MovieBooking.Services.initiateBooking st userId showId seatIds
               lockDurationMinutes now).2.seats sid = some s ∧
           s.status = MovieBooking.Models.ShowSeatStatus.LOCKED ∧
           s.bookingId = some st.nextBookingId) ∧
        (∃ bk ∈ (MovieBooking.Services.initiateBooking st userId showId seatIds
            lockDurationMinutes now).2.bookings,
           bk.id = st.nextBookingId ∧
           bk.bookingStatus = MovieBooking.Models.BookingStatus.PENDING ∧
           bk.showSeatIds = seatIds)) ∧
      ((MovieBooking.Services.initiateBooking st userId showId seatIds
          lockDurationMinutes now).1.success = false →
        (MovieBooking.Services.initiateBooking st userId showId seatIds
          lockDurationMinutes now).2 = st ∧
        ∀ sid s, MovieBooking.Services.findSeat
            (MovieBooking.Services.initiateBooking st userId showId seatIds
              lockDurationMinutes now).2.seats sid = some s →
          s.bookingId ≠ some st.nextBookingId) := by
  intro st userId showId seatIds d now hnd hFresh
  unfold MovieBooking.Services.initiateBooking
  split
  next hmiss =>
    constructor
    · intro h
      simp at h
    · intro _
      exact ⟨rfl, fun sid s hf => hFresh s (findSeat_mem st.seats sid s hf)⟩
  next hmiss =>
    dsimp only
    split
    next hfail =>
      have hall : ∀ sid ∈ seatIds, ∃ s,
          MovieBooking.Services.findSeat st.seats sid = some s ∧
          s.canBeLocked now = true := by
        intro sid hmem
        have h1 : ¬ (MovieBooking.Services.findSeat st.seats sid).isNone = true := by
          intro hnone
          exact hmiss (List.any_eq_true.mpr ⟨sid, hmem, hnone⟩)
        cases hfs : MovieBooking.Services.findSeat st.seats sid with
        | none => rw [hfs] at h1; simp at h1
        | some s =>
            refine ⟨s, rfl, ?_⟩
            have h2 := List.filter_eq_nil_iff.mp hfail sid hmem
            rw [hfs] at h2
            simpa using h2
      obtain ⟨hsucc, hpres, hlocked⟩ :=
        tryLockSeats_applies seatIds st.seats st.nextBookingId (now + 60 * d) now
          [] hnd hall
      split
      next hattempt =>
        constructor
        · intro _
          constructor
          · intro sid hmem
            obtain ⟨s, h1, h2, h3⟩ := hlocked sid hmem
            exact ⟨s, h1, h2, h3⟩
          · refine ⟨⟨st.nextBookingId, userId, showId,
              MovieBooking.Models.BookingStatus.PENDING,
              MovieBooking.Models.PaymentStatus.PENDING,
              (List.map (fun sid =>
                match MovieBooking.Services.findSeat st.seats sid with
                | some s => s.price
                | none => 0) seatIds).sum, seatIds,
              now + 60 * d⟩, ?_, rfl, rfl, rfl⟩
            simp
        · intro h
          simp at h
      next hattempt =>
        exact absurd hsucc hattempt
    next hfail =>
      constructor
      · intro h
        simp at h
      · intro _
        exact ⟨rfl, fun sid s hf => hFresh s (findSeat_mem st.seats sid s hf)⟩

/-- A concrete one-seat store state with next booking id 5, used to
instantiate the initiate-booking theorem. -/
def demoState : MovieBooking.Services.SysState :=
  ⟨[⟨1, 1, 10, MovieBooking.Models.ShowSeatStatus.AVAILABLE, none, none, 100⟩],
   [], 5⟩

/-- Witness for C2: on the concrete state the call succeeds and seat 10
is LOCKED to booking 5. -/
theorem initiateBooking_atomic_witness :
    ∃ s, MovieBooking.Services.findSeat
        (MovieBooking.Services.initiateBooking demoState 7 1 [10] 15 0).2.seats 10 =
        some s ∧
      s.status = MovieBooking.Models.ShowSeatStatus.LOCKED ∧
      s.bookingId = some 5 := by
  have h := initiateBooking_atomic demoState 7 1 [10] 15 0 (by decide) (by decide)
  exact (h.1 (by decide)).1 10 (by decide)
